import Mathlib

/-!
Shallow embedding of the INLegalMistral repository (src/legalRag.py and
src/streamlit_app.py): a small retrieval-augmented-generation chat app.
External collaborators (the Cortex search service and the Complete model
call) are passed in as oracle functions; a raised Python exception is
modelled as an Except.error carrying its message, and a normal return as
Except.ok.
-/

set_option autoImplicit false

/-- One chat turn: a role/content dict appended to st.session_state.messages. -/
structure Turn where
  role : String
  content : String
deriving DecidableEq

/-- Text of the analysis prompt before the question slot; identical in
src/legalRag.py lines 72 to 75 and src/streamlit_app.py lines 91 to 94. -/
def promptIntro : String :=
  "\n        You are an expert Indian legal assistant analyzing Supreme Court cases.\n        Analyze the following legal scenario and relevant case laws to provide advice.\n\n        Scenario Question:\n        "

/-- Text of the analysis prompt after the context slot; identical in
src/legalRag.py lines 79 to 88 and src/streamlit_app.py lines 98 to 107. -/
def promptTail : String :=
  "\n\n        Please provide:\n        1. A brief analysis of how the top 3 cases relate to the scenario\n        2. Key legal principles established in these cases (keep it short)\n        3. Potential application to the current scenario\n        4. Recommended course of action based on these precedents\n\n        Format your response in a clear, structured manner with case citations.\n        If certain aspects are not covered by these cases, clearly state so.\n        "

/-- Everything of the src/legalRag.py prompt before the context slot
(f-string, lines 71 to 78). -/
def legalRagPromptPre (query : String) : String :=
  promptIntro ++ query ++ "\n\n        Context: "

/-- The f-string prompt of LLegalRAG.generate_legal_analysis in
src/legalRag.py (lines 71 to 88), as a function of the two interpolated
values. -/
def legalRagPromptTemplate (query ctxHead : String) : String :=
  legalRagPromptPre query ++ ctxHead ++ promptTail

/-- Prompt construction step of generate_legal_analysis in src/legalRag.py:
the f-string reads context[0], which raises IndexError on an empty list
(modelled as none). -/
def legalRag_buildPrompt (query : String) (context : List String) : Option String :=
  match context with
  | [] => none
  | c :: _ => some (legalRagPromptTemplate query c)

/-- generate_legal_analysis in src/legalRag.py (lines 67 to 89): build the
prompt, then call Complete with the hard-coded model mistral-large.  The
call is an oracle; with no try block around it, its error propagates to the
caller unchanged. -/
def legalRag_generate (complete : String → String → Except String String)
    (query : String) (context : List String) : Except String String :=
  match legalRag_buildPrompt query context with
  | none => Except.error "IndexError: list index out of range"
  | some p => complete "mistral-large" p

/-- Everything of the src/streamlit_app.py prompt before the context slot
(f-string, lines 90 to 97). -/
def streamlitPromptPre (query question_summary : String) : String :=
  promptIntro ++ query ++ "\n        <chat history> " ++ question_summary
    ++ " </chat history>\n        Context: "

/-- The f-string prompt of generate_legal_analysis in src/streamlit_app.py
(lines 90 to 107), as a function of the three interpolated values. -/
def streamlitPromptTemplate (query question_summary ctxHead : String) : String :=
  streamlitPromptPre query question_summary ++ ctxHead ++ promptTail

/-- Lines 87 to 88 of src/streamlit_app.py: an empty context list is replaced
by the placeholder singleton before the f-string reads context[0]. -/
def streamlit_contextOrPlaceholder (context : List String) : List String :=
  if context.isEmpty then ["No relevant context found"] else context

/-- The prompt generate_legal_analysis in src/streamlit_app.py renders for a
given question, history summary and retrieved context (lines 87 to 107). -/
def streamlit_prompt (query question_summary : String) (context : List String) : String :=
  streamlitPromptTemplate query question_summary
    ((streamlit_contextOrPlaceholder context).headD "")

/-- Sliding-window history read shared by both variants:
start_index = max(0, len(messages) - slide_window); return
messages[start_index:].  Nat subtraction already truncates at 0.  The list
is only read, never written. -/
def get_chat_history (slide_window : Nat) (messages : List Turn) : List Turn :=
  messages.drop (messages.length - slide_window)

/-- SLIDE_WINDOW = 7 in src/legalRag.py (line 13). -/
def SLIDE_WINDOW : Nat := 7

/-- get_chat_history in src/legalRag.py (lines 110 to 113). -/
def legalRag_get_chat_history (messages : List Turn) : List Turn :=
  get_chat_history SLIDE_WINDOW messages

/-- get_chat_history in src/streamlit_app.py (lines 128 to 132); the local
slide_window there is 5. -/
def streamlit_get_chat_history (messages : List Turn) : List Turn :=
  get_chat_history 5 messages

/-- Message of the UnboundLocalError raised at line 84 of src/streamlit_app.py
when use_chat_history is false: chat_history is a function local assigned
only inside the branch of line 80. -/
def unboundLocalErrorMsg : String :=
  "UnboundLocalError: local variable chat_history referenced before assignment"

/-- summarize_question_with_history in src/streamlit_app.py (lines 144 to
157): wraps the serialized history window and the question in a fixed
instruction template and calls Complete with the session model name.  The
Python interpolation of the turn list into the f-string is passed in as a
serialization function. -/
def summarize_question_with_history
    (complete : String → String → Except String String)
    (serializeHistory : List Turn → String)
    (model_name : String) (chat_history : List Turn) (question : String) :
    Except String String :=
  complete model_name
    ("\n        Based on the chat history below and the question, generate a query that extends the question\n        with the chat history provided. The query should be in natural language. \n        Answer with only the query. Do not add any explanation.\n        \n        <chat_history>\n        "
      ++ serializeHistory chat_history
      ++ "\n        </chat_history>\n        <question>\n        "
      ++ question
      ++ "\n        </question>\n        ")

/-- generate_legal_analysis in src/streamlit_app.py (lines 79 to 112).
summ stands for the summarize_question_with_history call of line 85 (outside
the try block, so its failure propagates); complete for the Complete call of
line 110, whose failure is caught and its string representation returned as
the result (line 112).  When use_chat_history is false, chat_history is
never assigned and the read at line 84 raises UnboundLocalError before
anything else happens. -/
def streamlit_generate
    (summ : List Turn → String → Except String String)
    (complete : String → String → Except String String)
    (use_chat_history : Bool) (messages : List Turn)
    (query : String) (context : List String) : Except String String :=
  if use_chat_history then
    let chat_history := streamlit_get_chat_history messages
    match (if chat_history.isEmpty then Except.ok "" else summ chat_history query) with
    | Except.error e => Except.error e
    | Except.ok question_summary =>
      match complete "mistral-7b" (streamlit_prompt query question_summary context) with
      | Except.ok answer => Except.ok answer
      | Except.error e => Except.ok e
  else
    Except.error unboundLocalErrorMsg

/-- The turns a question handler appends: the user turn, then, exactly when
generation returns a value, the assistant turn carrying it. -/
def appendedTurns (question : String) (outcome : Except String String) : List Turn :=
  match outcome with
  | Except.ok response => [Turn.mk "user" question, Turn.mk "assistant" response]
  | Except.error _ => [Turn.mk "user" question]

/-- Question handler of main in src/legalRag.py (lines 140 to 153): append
the user turn, run legal_rag.query (the retrieval outcome is passed in as
the snippet list), and append the assistant turn on a normal return; a
raised exception escapes with only the user turn appended.  Returns the new
history together with the outcome. -/
def legalRag_handleQuestion (complete : String → String → Except String String)
    (retrieved : List String) (messages : List Turn) (question : String) :
    List Turn × Except String String :=
  let m1 := messages ++ [Turn.mk "user" question]
  match legalRag_generate complete question retrieved with
  | Except.ok response => (m1 ++ [Turn.mk "assistant" response], Except.ok response)
  | Except.error e => (m1, Except.error e)

/-- Question handler of main in src/streamlit_app.py (lines 173 to 183); the
user turn is already in session state when generate_legal_analysis reads the
history window. -/
def streamlit_handleQuestion
    (summ : List Turn → String → Except String String)
    (complete : String → String → Except String String)
    (use_chat_history : Bool) (retrieved : List String)
    (messages : List Turn) (question : String) :
    List Turn × Except String String :=
  let m1 := messages ++ [Turn.mk "user" question]
  match streamlit_generate summ complete use_chat_history m1 question retrieved with
  | Except.ok response => (m1 ++ [Turn.mk "assistant" response], Except.ok response)
  | Except.error e => (m1, Except.error e)

/-- The request CortexSearchRetriever.retrieve sends to the search service. -/
structure SearchRequest where
  query : String
  columns : List String
  limit : Nat
deriving DecidableEq

/-- CortexSearchRetriever holds the limit passed to its constructor. -/
structure CortexSearchRetriever where
  limit_to_retrieve : Nat
deriving DecidableEq

/-- CortexSearchRetriever.__init__ with an explicit limit argument
(src/legalRag.py line 27, src/streamlit_app.py line 48). -/
def CortexSearchRetriever.init (limit_to_retrieve : Nat) : CortexSearchRetriever :=
  { limit_to_retrieve := limit_to_retrieve }

/-- CortexSearchRetriever.__init__ invoked without the argument: the Python
parameter declares limit_to_retrieve = 4 as its default value. -/
def CortexSearchRetriever.initDefault : CortexSearchRetriever :=
  CortexSearchRetriever.init 4

/-- The search call of CortexSearchRetriever.retrieve (src/legalRag.py lines
39 to 43, src/streamlit_app.py lines 58 to 62): columns fixed to
extracted_text, limit taken from the instance field. -/
def CortexSearchRetriever.retrieveRequest (r : CortexSearchRetriever)
    (query : String) : SearchRequest :=
  { query := query, columns := ["extracted_text"], limit := r.limit_to_retrieve }

/-- LLegalRAG.__init__ constructs its retriever with limit_to_retrieve = 5
(src/legalRag.py lines 52 to 56; same value in src/streamlit_app.py lines
71 to 74). -/
def LLegalRAG.retriever : CortexSearchRetriever :=
  CortexSearchRetriever.init 5

/-- init_messages in src/legalRag.py (lines 105 to 108): sets messages to the
empty list only when the session key is absent (none models an absent key);
the result is the value of the key afterwards. -/
def legalRag_init_messages (messages : Option (List Turn)) : List Turn :=
  match messages with
  | none => []
  | some ms => ms

/-- Clicking Start Over in src/legalRag.py (line 125) runs init_messages as
the button callback, with no other state change; by then main has always
initialized the messages key. -/
def legalRag_startOver (messages : List Turn) : List Turn :=
  legalRag_init_messages (some messages)

/-- init_messages in src/streamlit_app.py (lines 123 to 126): clears when the
clear_conversation key reads true or the messages key is absent. -/
def streamlit_init_messages (clear_conversation : Bool)
    (messages : Option (List Turn)) : List Turn :=
  if clear_conversation || messages.isNone then [] else messages.getD []

/-- Clicking Start Over in src/streamlit_app.py (line 142): the button key
clear_conversation reads true while its callback init_messages runs. -/
def streamlit_startOver (messages : List Turn) : List Turn :=
  streamlit_init_messages true (some messages)

/-- Session state visible to the app: the sidebar controls plus the history. -/
structure AppState where
  model_name : String
  use_chat_history : Bool
  messages : List Turn
deriving DecidableEq

/-- One user-visible operation of a session.  ask carries the question and
the snippet list the retrieval returned for it. -/
inductive SessionOp where
  | ask (question : String) (retrieved : List String)
  | readHistory
  | setModel (m : String)
  | setUseChatHistory (b : Bool)
  | reset
deriving DecidableEq

/-- Effect of one operation on the src/legalRag.py session (main, lines 127
to 156): ask runs the question handler; reading the history window and the
sidebar controls leave messages untouched; Start Over runs the
legalRag_startOver callback. -/
def legalRag_step (complete : String → String → Except String String)
    (op : SessionOp) (s : AppState) : AppState :=
  match op with
  | SessionOp.ask q retrieved =>
      { s with messages := (legalRag_handleQuestion complete retrieved s.messages q).1 }
  | SessionOp.readHistory => s
  | SessionOp.setModel m => { s with model_name := m }
  | SessionOp.setUseChatHistory b => { s with use_chat_history := b }
  | SessionOp.reset => { s with messages := legalRag_startOver s.messages }

/-- Effect of one operation on the src/streamlit_app.py session (main, lines
159 to 183). -/
def streamlit_step
    (summ : List Turn → String → Except String String)
    (complete : String → String → Except String String)
    (op : SessionOp) (s : AppState) : AppState :=
  match op with
  | SessionOp.ask q retrieved =>
      { s with messages :=
          (streamlit_handleQuestion summ complete s.use_chat_history retrieved
            s.messages q).1 }
  | SessionOp.readHistory => s
  | SessionOp.setModel m => { s with model_name := m }
  | SessionOp.setUseChatHistory b => { s with use_chat_history := b }
  | SessionOp.reset => { s with messages := streamlit_startOver s.messages }

/-- The (model, prompt) pair src/legalRag.py sends to Complete for a
submitted question.  main (lines 148 to 152) computes chat_history from the
state but passes only the question to LLegalRAG.query (line 151); query
passes the question and the retrieved snippets to generate_legal_analysis
(lines 92 to 98), whose Complete call hard-codes mistral-large (line 89) —
so the session-state argument is unused, exactly as in the source. -/
def legalRag_requestOfRun (s : AppState) (question : String)
    (retrieved : List String) : Option (String × String) :=
  (legalRag_buildPrompt question retrieved).map (fun p => ("mistral-large", p))

/-! ## Helper lemmas -/

theorem legalRag_handleQuestion_messages
    (complete : String → String → Except String String)
    (retrieved : List String) (messages : List Turn) (question : String) :
    (legalRag_handleQuestion complete retrieved messages question).1
      = messages ++ appendedTurns question (legalRag_generate complete question retrieved) := by
  unfold legalRag_handleQuestion appendedTurns
  cases legalRag_generate complete question retrieved <;> simp

theorem streamlit_handleQuestion_messages
    (summ : List Turn → String → Except String String)
    (complete : String → String → Except String String)
    (use_chat_history : Bool) (retrieved : List String)
    (messages : List Turn) (question : String) :
    (streamlit_handleQuestion summ complete use_chat_history retrieved messages question).1
      = messages ++ appendedTurns question
          (streamlit_generate summ complete use_chat_history
            (messages ++ [Turn.mk "user" question]) question retrieved) := by
  unfold streamlit_handleQuestion
  cases h : streamlit_generate summ complete use_chat_history
    (messages ++ [Turn.mk "user" question]) question retrieved <;>
    simp [appendedTurns, h]

/-! ## Claim theorems -/

/-- Claim C1, counterexample: in src/legalRag.py with zero retrieved snippets
no prompt is built at all — context[0] raises IndexError — so no prompt
embedding the placeholder exists, contrary to the claim at N = 0. -/
theorem C1_counterexample :
    ¬ ∃ p, legalRag_buildPrompt "q" [] = some p
        ∧ ∃ l r, p = l ++ "No relevant context found" ++ r := by
  rintro ⟨p, h, -⟩
  simp [legalRag_buildPrompt] at h

/-- Claim C1, amended: when N > 0 both variants build a prompt that embeds
exactly snippet 0 — the prompt is a function of the head alone, so no later
snippet enters it; when N = 0 the src/streamlit_app.py prompt embeds the
literal placeholder, while src/legalRag.py builds no prompt (IndexError). -/
theorem C1_prompt_uses_head (q summary c : String) (cs : List String) :
    legalRag_buildPrompt q (c :: cs) = some (legalRagPromptTemplate q c)
    ∧ (∃ l r, legalRagPromptTemplate q c = l ++ c ++ r)
    ∧ legalRag_buildPrompt q [] = none
    ∧ streamlit_prompt q summary (c :: cs) = streamlitPromptTemplate q summary c
    ∧ (∃ l r, streamlitPromptTemplate q summary c = l ++ c ++ r)
    ∧ streamlit_prompt q summary []
        = streamlitPromptTemplate q summary "No relevant context found"
    ∧ (∃ l r, streamlit_prompt q summary []
        = l ++ "No relevant context found" ++ r) := by
  refine ⟨rfl, ⟨legalRagPromptPre q, promptTail, rfl⟩, rfl, rfl,
    ⟨streamlitPromptPre q summary, promptTail, rfl⟩, rfl,
    ⟨streamlitPromptPre q summary, promptTail, rfl⟩⟩

/-- Claim C2, counterexample: in src/streamlit_app.py a failing Complete call
produces exactly the same result as a successful call returning that error
text, so the failure is returned as if it were model output. -/
theorem C2_counterexample :
    streamlit_generate (fun _ _ => Except.ok "") (fun _ _ => Except.error "boom")
        true [] "q" ["c"]
      = Except.ok "boom"
    ∧ streamlit_generate (fun _ _ => Except.ok "") (fun _ _ => Except.error "boom")
        true [] "q" ["c"]
      = streamlit_generate (fun _ _ => Except.ok "") (fun _ _ => Except.ok "boom")
        true [] "q" ["c"] := ⟨rfl, rfl⟩

/-- Claim C2, amended: in src/legalRag.py a Complete failure propagates as an
error, distinct from any successful return; in src/streamlit_app.py the error
string is returned as the analysis value, identical to what a successful
completion producing that very text returns. -/
theorem C2_generation_failure (e sr q c : String) (cs : List String)
    (messages : List Turn) :
    legalRag_generate (fun _ _ => Except.error e) q (c :: cs) = Except.error e
    ∧ streamlit_generate (fun _ _ => Except.ok sr) (fun _ _ => Except.error e)
        true messages q (c :: cs) = Except.ok e
    ∧ streamlit_generate (fun _ _ => Except.ok sr) (fun _ _ => Except.ok e)
        true messages q (c :: cs) = Except.ok e := by
  refine ⟨rfl, ?_, ?_⟩
  all_goals
    unfold streamlit_generate
    cases h : (streamlit_get_chat_history messages).isEmpty <;> simp [h]

/-- Claim C3, code bug: in src/legalRag.py the Start Over handler leaves an
already-initialized non-empty history unchanged instead of emptying it; the
src/streamlit_app.py variant, whose button sets the clear_conversation key,
does empty it. -/
theorem C3_startOver_eval :
    legalRag_startOver [Turn.mk "user" "q"] = [Turn.mk "user" "q"]
    ∧ legalRag_startOver [Turn.mk "user" "q"] ≠ []
    ∧ streamlit_startOver [Turn.mk "user" "q"] = [] := by
  refine ⟨rfl, ?_, rfl⟩
  decide

/-- Claim C4, confirmed: with use_chat_history disabled,
summarize_question_with_history is never invoked by generate_legal_analysis
in src/streamlit_app.py: the result is the same for every summarizer, for
every history and question — the UnboundLocalError of line 84 is raised
before the summarizer could be reached. -/
theorem C4_summarizer_not_invoked
    (summ1 summ2 : List Turn → String → Except String String)
    (complete : String → String → Except String String)
    (messages : List Turn) (query : String) (context : List String) :
    streamlit_generate summ1 complete false messages query context
      = streamlit_generate summ2 complete false messages query context := rfl

/-- Claim C5, counterexample: the default value of the limit_to_retrieve
parameter declared by CortexSearchRetriever.__init__ is 4, not 5. -/
theorem C5_counterexample :
    CortexSearchRetriever.initDefault.limit_to_retrieve = 4
    ∧ CortexSearchRetriever.initDefault.limit_to_retrieve ≠ 5 := by
  refine ⟨rfl, ?_⟩
  decide

/-- Claim C5, amended: retrieve issues its search request with limit equal to
the limit_to_retrieve parameter; the declared default is 4, and LLegalRAG
constructs its retriever with 5, so in the app the collaborator is asked for
at most 5 matches. -/
theorem C5_retrieve_limit (r : CortexSearchRetriever) (q : String) :
    (r.retrieveRequest q).limit = r.limit_to_retrieve
    ∧ CortexSearchRetriever.initDefault.limit_to_retrieve = 4
    ∧ LLegalRAG.retriever.limit_to_retrieve = 5 := ⟨rfl, rfl, rfl⟩

/-- Claim C6, confirmed: get_chat_history returns exactly the last
min(W, length) entries of the message list in their original order — the
dropped prefix plus the returned suffix reassemble the unmodified list — for
every window size W and every list. -/
theorem C6_get_chat_history_window (W : Nat) (messages : List Turn) :
    (get_chat_history W messages).length = min W messages.length
    ∧ messages.take (messages.length - W) ++ get_chat_history W messages
        = messages := by
  constructor
  · simp [get_chat_history]
    omega
  · exact messages.take_append_drop (messages.length - W)

/-- Claim C7, counterexample: in src/streamlit_app.py with the history toggle
off, handling a question raises after the first append, so the history grows
by one turn, not two. -/
theorem C7_counterexample :
    (streamlit_handleQuestion (fun _ _ => Except.ok "") (fun _ _ => Except.ok "fine")
        false ["c"] [] "q").1.length ≠ ([] : List Turn).length + 2 := by
  decide

/-- Claim C7, amended: handling a question appends the user turn and then,
exactly when generation returns a value (a normal return, which in the
streamlit variant includes the error-as-content text), the assistant turn:
two turns in that order on a normal return, only the user turn when the
generation raises. -/
theorem C7_two_appends
    (summ : List Turn → String → Except String String)
    (complete : String → String → Except String String)
    (use_chat_history : Bool) (retrieved : List String)
    (messages : List Turn) (question response err : String) :
    (legalRag_handleQuestion complete retrieved messages question).1
      = messages ++ appendedTurns question (legalRag_generate complete question retrieved)
    ∧ (streamlit_handleQuestion summ complete use_chat_history retrieved messages question).1
      = messages ++ appendedTurns question
          (streamlit_generate summ complete use_chat_history
            (messages ++ [Turn.mk "user" question]) question retrieved)
    ∧ appendedTurns question (Except.ok response)
        = [Turn.mk "user" question, Turn.mk "assistant" response]
    ∧ (appendedTurns question (Except.ok response)).length = 2
    ∧ appendedTurns question (Except.error err) = [Turn.mk "user" question]
    ∧ (appendedTurns question (Except.error err)).length = 1 :=
  ⟨legalRag_handleQuestion_messages complete retrieved messages question,
    streamlit_handleQuestion_messages summ complete use_chat_history retrieved
      messages question,
    rfl, rfl, rfl, rfl⟩

/-- Claim C8, confirmed: in both variants every session operation either
extends the history by appending at its end, leaving existing turns
untouched, or — only for the reset action — replaces it wholesale with the
empty list. -/
theorem C8_history_append_only
    (summ : List Turn → String → Except String String)
    (complete : String → String → Except String String)
    (op : SessionOp) (s : AppState) :
    ((∃ t, (streamlit_step summ complete op s).messages = s.messages ++ t)
      ∨ (op = SessionOp.reset ∧ (streamlit_step summ complete op s).messages = []))
    ∧ ((∃ t, (legalRag_step complete op s).messages = s.messages ++ t)
      ∨ (op = SessionOp.reset ∧ (legalRag_step complete op s).messages = [])) := by
  constructor
  · cases op with
    | ask q retrieved =>
        exact Or.inl ⟨appendedTurns q (streamlit_generate summ complete
            s.use_chat_history (s.messages ++ [Turn.mk "user" q]) q retrieved),
          streamlit_handleQuestion_messages summ complete s.use_chat_history
            retrieved s.messages q⟩
    | readHistory => exact Or.inl ⟨[], by simp [streamlit_step]⟩
    | setModel m => exact Or.inl ⟨[], by simp [streamlit_step]⟩
    | setUseChatHistory b => exact Or.inl ⟨[], by simp [streamlit_step]⟩
    | reset => exact Or.inr ⟨rfl, rfl⟩
  · cases op with
    | ask q retrieved =>
        exact Or.inl ⟨appendedTurns q (legalRag_generate complete q retrieved),
          legalRag_handleQuestion_messages complete retrieved s.messages q⟩
    | readHistory => exact Or.inl ⟨[], by simp [legalRag_step]⟩
    | setModel m => exact Or.inl ⟨[], by simp [legalRag_step]⟩
    | setUseChatHistory b => exact Or.inl ⟨[], by simp [legalRag_step]⟩
    | reset =>
        exact Or.inl ⟨[], by simp [legalRag_step, legalRag_startOver,
          legalRag_init_messages]⟩

/-- Claim C9, confirmed: whenever use_chat_history is false,
generate_legal_analysis in src/streamlit_app.py fails with the unbound-local
error for every question and context list, and the failure is reachable from
the public question handler. -/
theorem C9_unbound_local
    (summ : List Turn → String → Except String String)
    (complete : String → String → Except String String)
    (messages : List Turn) (query : String) (context : List String)
    (retrieved : List String) (question : String) :
    streamlit_generate summ complete false messages query context
      = Except.error unboundLocalErrorMsg
    ∧ (streamlit_handleQuestion summ complete false retrieved messages question).2
      = Except.error unboundLocalErrorMsg := ⟨rfl, rfl⟩

/-- Claim C10, confirmed: the Complete request src/legalRag.py issues depends
only on the question and the retrieved snippets — identical across any two
session states, however model_name, use_chat_history and the chat history
differ — with the model hard-coded to mistral-large and the prompt built from
the snippet head alone. -/
theorem C10_request_state_independent (s1 s2 : AppState) (question : String)
    (retrieved : List String) :
    legalRag_requestOfRun s1 question retrieved
      = legalRag_requestOfRun s2 question retrieved
    ∧ legalRag_requestOfRun s1 question retrieved
        = (match retrieved with
           | [] => none
           | c :: _ => some ("mistral-large", legalRagPromptTemplate question c)) := by
  refine ⟨rfl, ?_⟩
  cases retrieved <;> rfl
